import Mathlib

/-
Verification development for the Fragment Username Checker repository
(src/api/index.py, src/api/app.py, src/main.py).

The network and HTML-parsing boundary (requests.Session, BeautifulSoup,
the JSON decoder) is modelled by environment records: an environment
supplies, for each outgoing request, either the exception class raised or
the parsed payload the Python code would extract from the response.  All
string scanning that the Python code performs itself (regular-expression
searches for the API hash, substring tests, lowercasing, stripping,
removal of the at sign) is translated here at the character level.
Character-level operations model the ASCII behaviour of the Python string
methods; every concrete input used below is ASCII.
-/

namespace Fragm

/- ------------------------------------------------------------------ -/
/- String primitives                                                   -/
/- ------------------------------------------------------------------ -/

/-- Membership of a character in the class [A-Za-z0-9_] used by the
username regular expressions in both source files. -/
def isWordChar (c : Char) : Bool :=
  c.isAlpha || c.isDigit || c = '_'

/-- Membership of a character in the class [a-fA-F0-9] used by the hash
regular expressions. -/
def isHexChar (c : Char) : Bool :=
  c.isDigit || ('a' ≤ c && c ≤ 'f') || ('A' ≤ c && c ≤ 'F')

/-- leadMatch needle hay is true when needle occurs at the head of hay. -/
def leadMatch : List Char → List Char → Bool
  | [], _ => true
  | _ :: _, [] => false
  | a :: as, b :: bs => a = b && leadMatch as bs

/-- subOccurs needle hay is true when needle occurs somewhere inside hay;
this models the Python test needle in hay. -/
def subOccurs (needle : List Char) : List Char → Bool
  | [] => leadMatch needle []
  | c :: t => leadMatch needle (c :: t) || subOccurs needle t

/-- Model of str.strip for the ASCII whitespace characters. -/
def trimChars (l : List Char) : List Char :=
  ((l.dropWhile Char.isWhitespace).reverse.dropWhile Char.isWhitespace).reverse

/-- Model of str.lower restricted to ASCII. -/
def strLower (s : String) : String :=
  String.mk (s.toList.map Char.toLower)

/-- Model of username.strip().lower().replace(at, empty) as performed at
src/api/index.py line 617, src/api/app.py lines 149 and 175, and per
element at src/api/index.py line 700.  For the one-character pattern the
Python replace removes every occurrence of the at sign, so it is modelled
as a character filter. -/
def normalizeUsername (s : String) : String :=
  String.mk (((trimChars s.toList).map Char.toLower).filter (fun c => c ≠ '@'))

/-- Model of re.match with pattern [a-zA-Z0-9_] repeated 1 to 32 times and
anchored at both ends (src/api/index.py lines 626 and 701).  The inputs it
is applied to have been stripped, so the end-of-string subtlety of the
Python dollar anchor before a final newline cannot arise. -/
def validFormat32 (s : String) : Bool :=
  1 ≤ s.toList.length && s.toList.length ≤ 32 && s.toList.all isWordChar

/-- Model of re.match with pattern [a-zA-Z0-9_] repeated one or more times
and anchored at both ends (src/api/app.py line 157). -/
def formatPlus (s : String) : Bool :=
  1 ≤ s.toList.length && s.toList.all isWordChar

/-- Model of str.split applied to a comma (src/api/index.py line 700). -/
def splitOnComma : List Char → List (List Char)
  | [] => [[]]
  | c :: t =>
    let r := splitOnComma t
    if c = ',' then [] :: r
    else
      match r with
      | h :: t2 => (c :: h) :: t2
      | [] => [[c]]

/-- Model of the list comprehensions at src/api/index.py lines 700-701:
split the raw query on commas, normalize each piece, keep the non-empty
pieces that match the username format. -/
def batchUsernameList (usernames : String) : List String :=
  (((splitOnComma usernames.toList).map
      (fun l => normalizeUsername (String.mk l))).filter
    (fun u => u ≠ "" && validFormat32 u))

/- ------------------------------------------------------------------ -/
/- Hash extraction (src/api/index.py get_api_hash, lines 89-140)       -/
/- ------------------------------------------------------------------ -/

/-- Maximal run of hex characters at the head of a list; models the
greedy capture group of one or more hex characters. -/
def hexRun : List Char → List Char
  | [] => []
  | c :: t => if isHexChar c then c :: hexRun t else []

/-- Model of re.search for the pattern: literal hash= followed by a
capture of exactly 64 hex characters (src/api/index.py line 111).  The
search returns the capture at the leftmost position where the whole
pattern matches. -/
def searchPat1 : List Char → Option String
  | [] => none
  | c :: t =>
    let l := c :: t
    if leadMatch "hash=".toList l then
      let cap := (l.drop 5).take 64
      if cap.length = 64 && cap.all isHexChar then some (String.mk cap)
      else searchPat1 t
    else searchPat1 t

/-- Model of re.search for the pattern: a quoted hash key followed by a
capture of exactly 64 hex characters and a closing quote
(src/api/index.py line 118). -/
def searchPat2 : List Char → Option String
  | [] => none
  | c :: t =>
    let l := c :: t
    if leadMatch "\"hash\":\"".toList l then
      let rest := l.drop 8
      let cap := rest.take 64
      if cap.length = 64 && cap.all isHexChar && (rest.drop 64).take 1 = ['"'] then
        some (String.mk cap)
      else searchPat2 t
    else searchPat2 t

/-- Model of re.search for the pattern: literal hash= followed by a
greedy capture of one or more hex characters (src/api/index.py line 129
and src/api/app.py line 52). -/
def searchPat3 : List Char → Option String
  | [] => none
  | c :: t =>
    let l := c :: t
    if leadMatch "hash=".toList l then
      let run := hexRun (l.drop 5)
      if run.isEmpty then searchPat3 t else some (String.mk run)
    else searchPat3 t

/-- Model of the line scan at src/api/index.py lines 126-131: the first
line containing both the apiUrl marker and hash= whose hash pattern
matches yields the capture. -/
def pat3Lines : List String → Option String
  | [] => none
  | line :: rest =>
    if subOccurs "apiUrl".toList line.toList && subOccurs "hash=".toList line.toList then
      match searchPat3 line.toList with
      | some h => some h
      | none => pat3Lines rest
    else pat3Lines rest

/-- Model of str.split applied to a newline (src/api/index.py line 126). -/
def splitOnNewline (s : String) : List String :=
  ((splitOnNewlineChars s.toList).map String.mk)
where
  splitOnNewlineChars : List Char → List (List Char)
    | [] => [[]]
    | c :: t =>
      let r := splitOnNewlineChars t
      if c = '\n' then [] :: r
      else
        match r with
        | h :: t2 => (c :: h) :: t2
        | [] => [[c]]

/-- The pattern cascade of get_api_hash (src/api/index.py lines 107-133):
pattern 1, then pattern 2, then the per-line scan guarded by the apiUrl
marker; the first match wins. -/
def findHash (html : String) : Option String :=
  match searchPat1 html.toList with
  | some h => some h
  | none =>
    match searchPat2 html.toList with
    | some h => some h
    | none =>
      if subOccurs "apiUrl".toList html.toList then
        pat3Lines (splitOnNewline html)
      else none

/- ------------------------------------------------------------------ -/
/- Model of src/api/index.py                                           -/
/- ------------------------------------------------------------------ -/

/-- Outcome of one POST attempt against the Fragment API as seen by the
code at src/api/index.py lines 174-259.  success carries the parsed
payload: none models a JSON envelope whose html field is absent or falsy
(line 186); some vs models a truthy html fragment whose div elements of
class tm-value have the stripped texts vs (lines 198-217).  timeout,
reqError and otherError model the three except clauses (lines 231, 242
and 253). -/
inductive AttemptOutcome where
  | timeout
  | reqError (msg : String)
  | otherError (msg : String)
  | success (htmlValues : Option (List String))
deriving DecidableEq

/-- Environment for src/api/index.py: the text of the marketplace landing
page (or the exception raised while fetching it, including a non-2xx
status turned into an exception by raise_for_status), and the outcome of
the n-th POST attempt. -/
structure IndexEnv where
  homepage : Except Unit String
  attempt : Nat → AttemptOutcome

/-- Result dictionary of check_username_on_fragment.  err carries the
message and the at-prefixed username of the error dictionaries (which
also set available to None); ok carries the fields of the success
dictionaries (which set error to False). -/
inductive FragResult where
  | err (message : String) (username : String)
  | ok (username price status : String) (available : Bool) (message : String)
deriving DecidableEq

/-- A run of check_username_on_fragment together with the HTTP requests
it issued: gets counts GET requests, posts counts POST attempts, sleeps
lists the time.sleep durations in seconds in order. -/
structure FragOutcome where
  result : FragResult
  gets : Nat
  posts : Nat
  sleeps : List Nat
deriving DecidableEq

/-- get_api_hash (src/api/index.py lines 89-140): on any exception the
function returns None, otherwise the pattern cascade runs on the body. -/
def getApiHash (env : IndexEnv) : Option String :=
  match env.homepage with
  | Except.error _ => none
  | Except.ok html => findHash html

/-- The Not Listed dictionary of src/api/index.py lines 188-195. -/
def fragNotListed (u : String) : FragResult :=
  FragResult.ok ("@" ++ u) "N/A" "Not Listed" true
    "✅ Username is not listed on Fragment (might be available)"

/-- The Not Found dictionary of src/api/index.py lines 203-212. -/
def fragNotFound (u : String) : FragResult :=
  FragResult.ok ("@" ++ u) "N/A" "Not Found" true
    "✅ Username not found on Fragment (likely available)"

/-- The extraction of src/api/index.py lines 215-229: first value is the
display tag, second is the price, third is the status text; available is
true exactly when the lowercased status text contains unavailable. -/
def fragListed (u : String) (vs : List String) : FragResult :=
  let found := vs.getD 0 ("@" ++ u)
  let price := vs.getD 1 "Unknown"
  let status := vs.getD 2 "Unknown"
  let available := subOccurs "unavailable".toList (strLower status).toList
  FragResult.ok found price status available
    (if available then "✅ Available for purchase" else "❌ Not available on Fragment")

/-- Processing of a successful POST response (src/api/index.py lines
184-229). -/
def fragSuccess (u : String) : Option (List String) → FragResult
  | none => fragNotListed u
  | some vs => if vs.length < 3 then fragNotFound u else fragListed u vs

/-- The retry loop of src/api/index.py lines 174-259: attempt numbers
count up, remaining counts the retries still allowed.  On timeout or
request exception with retries remaining the code sleeps one second and
continues; on the last attempt it returns the error dictionary; a generic
exception returns immediately without retrying.  The fall-through return
at lines 261-266 is unreachable because every loop iteration returns. -/
def fragTry (out : Nat → AttemptOutcome) (username : String) : Nat → Nat → FragOutcome
  | attempt, remaining =>
    match out attempt, remaining with
    | AttemptOutcome.success v, _ => ⟨fragSuccess username v, 0, 1, []⟩
    | AttemptOutcome.timeout, 0 =>
      ⟨FragResult.err "Request timeout. Fragment.com is taking too long to respond."
        ("@" ++ username), 0, 1, []⟩
    | AttemptOutcome.timeout, r + 1 =>
      let rest := fragTry out username (attempt + 1) r
      ⟨rest.result, rest.gets, rest.posts + 1, 1 :: rest.sleeps⟩
    | AttemptOutcome.reqError m, 0 =>
      ⟨FragResult.err ("Network error: " ++ m) ("@" ++ username), 0, 1, []⟩
    | AttemptOutcome.reqError _, r + 1 =>
      let rest := fragTry out username (attempt + 1) r
      ⟨rest.result, rest.gets, rest.posts + 1, 1 :: rest.sleeps⟩
    | AttemptOutcome.otherError m, _ =>
      ⟨FragResult.err ("Unexpected error: " ++ m) ("@" ++ username), 0, 1, []⟩

/-- check_username_on_fragment (src/api/index.py lines 142-266) with its
default of two retries: one GET for the hash; if the hash is missing the
function returns the connection error dictionary without any POST,
otherwise the retry loop runs. -/
def check_username_on_fragment (env : IndexEnv) (username : String)
    (retries : Nat := 2) : FragOutcome :=
  match getApiHash env with
  | none =>
    ⟨FragResult.err "Failed to connect to Fragment.com. Please try again later."
      ("@" ++ username), 1, 0, []⟩
  | some _ =>
    let t := fragTry env.attempt username 0 retries
    ⟨t.result, t.gets + 1, t.posts, t.sleeps⟩

/-- What a FastAPI handler hands back to the HTTP layer: a raised
HTTPException with status 400, one with status 500, or the JSON body. -/
inductive EndpointResult (α : Type) where
  | badRequest (detail : String)
  | serverError (detail : String)
  | ok (result : α)
deriving DecidableEq

/-- The branch on the error key at src/api/index.py lines 635-639: an
error dictionary is re-raised as an HTTPException with status 500
carrying its message, any other dictionary is returned. -/
def coreResp : FragResult → EndpointResult FragResult
  | FragResult.err m _ => EndpointResult.serverError m
  | r => EndpointResult.ok r

/-- The tail of the GET and POST handlers of src/api/index.py (lines
633-646): run the check, then branch on the error key (timestamp and
developer fields are ambient constants and are not modelled).  The second
component counts the HTTP requests issued. -/
def index_check_core (env : IndexEnv) (u : String) : EndpointResult FragResult × Nat :=
  let out := check_username_on_fragment env u 2
  (coreResp out.result, out.gets + out.posts)

/-- The status field of a result dictionary, when present. -/
def FragResult.statusOf : FragResult → Option String
  | FragResult.err _ _ => none
  | FragResult.ok _ _ s _ _ => some s

/-- The price field of a result dictionary, when present. -/
def FragResult.priceOf : FragResult → Option String
  | FragResult.err _ _ => none
  | FragResult.ok _ p _ _ _ => some p

/-- The available field of a result dictionary; the error dictionaries of
src/api/index.py set it to None. -/
def FragResult.availableOf : FragResult → Option Bool
  | FragResult.err _ _ => none
  | FragResult.ok _ _ _ a _ => some a

/-- True for the attempt outcomes that model a raised exception. -/
def attemptFails : AttemptOutcome → Bool
  | AttemptOutcome.success _ => false
  | _ => true

/-- Body of the GET handler of src/api/index.py (lines 616-646) after the
username has been normalized: reject the empty residue, reject a residue
that fails the format check, otherwise run the check. -/
def index_username_body (env : IndexEnv) (username : String) :
    EndpointResult FragResult × Nat :=
  if username = "" then (EndpointResult.badRequest "Username is required", 0)
  else if ¬ validFormat32 username then
    (EndpointResult.badRequest
      "Invalid username format. Username must be 1-32 characters containing only letters, numbers, and underscores.", 0)
  else index_check_core env username

/-- The GET handler of src/api/index.py (lines 595-646): normalize, then
validate and check. -/
def index_username_get (env : IndexEnv) (raw : String) :
    EndpointResult FragResult × Nat :=
  index_username_body env (normalizeUsername raw)

/-- Body of the POST handler of src/api/index.py (lines 648-684); it
differs from the GET body only in the empty-input detail string. -/
def index_username_post_body (env : IndexEnv) (username : String) :
    EndpointResult FragResult × Nat :=
  if username = "" then
    (EndpointResult.badRequest "Username is required in request body", 0)
  else if ¬ validFormat32 username then
    (EndpointResult.badRequest
      "Invalid username format. Username must be 1-32 characters containing only letters, numbers, and underscores.", 0)
  else index_check_core env username

/-- The POST handler of src/api/index.py (lines 648-684). -/
def index_username_post (env : IndexEnv) (raw : String) :
    EndpointResult FragResult × Nat :=
  index_username_post_body env (normalizeUsername raw)

/- ------------------------------------------------------------------ -/
/- Model of src/api/app.py                                             -/
/- ------------------------------------------------------------------ -/

/-- Outcome of one POST attempt in check_fgusername (src/api/app.py lines
70-99).  exn models any exception raised by the POST, raise_for_status or
the JSON decoder (all are caught by the single except clause at line 74).
ok carries the parsed payload: none models a JSON envelope whose html
field is absent or falsy (line 82); some vs models a truthy html fragment
whose div elements of class tm-value have the stripped texts vs. -/
inductive AppPostOutcome where
  | exn
  | ok (htmlValues : Option (List String))
deriving DecidableEq

/-- Environment for src/api/app.py.  check_fgusername calls frag_api
afresh on every recursion level, so both the landing-page scripts and the
POST outcome are indexed by the recursion depth.  scriptsAt d is the list
of script strings (None for a script without a string) that
BeautifulSoup finds in the landing page on call number d, or the
exception raised while fetching it. -/
structure AppEnv where
  scriptsAt : Nat → Except Unit (List (Option String))
  postAt : Nat → AppPostOutcome

/-- Result dictionary of check_fgusername.  err carries the message of a
dictionary with an error key; notFound models the dictionary at lines
92-99 (status Not Found, available True, fixed message); listed models
the dictionary at lines 108-116. -/
inductive AppResult where
  | err (message : String)
  | notFound (username : String)
  | listed (username price status : String) (available : Bool) (message : String)
deriving DecidableEq

/-- A run of check_fgusername with its request counts and sleeps. -/
structure AppOutcome where
  result : AppResult
  gets : Nat
  posts : Nat
  sleeps : List Nat
deriving DecidableEq

/-- Scan of the landing-page scripts in frag_api (src/api/app.py lines
50-55): the first script whose string exists, contains the apiUrl marker
and matches the hash pattern yields the API URL. -/
def fragApiScan : List (Option String) → Option String
  | [] => none
  | none :: rest => fragApiScan rest
  | some s :: rest =>
    if subOccurs "apiUrl".toList s.toList then
      match searchPat3 s.toList with
      | some h => some ("https://fragment.com/api?hash=" ++ h)
      | none => fragApiScan rest
    else fragApiScan rest

/-- frag_api (src/api/app.py lines 43-58): any exception yields None,
otherwise the script scan runs. -/
def appFragApi (scripts : Except Unit (List (Option String))) : Option String :=
  match scripts with
  | Except.error _ => none
  | Except.ok l => fragApiScan l

/-- Processing of a parsed html fragment in check_fgusername
(src/api/app.py lines 88-116): fewer than three value elements yield the
Not Found dictionary; otherwise the first three elements are tag, price
and status, and available is true exactly when the lowercased status text
equals unavailable.  The list indexing at lines 101-103 is guarded by the
length check, so the defaults of getD are unreachable. -/
def appSuccess (username : String) (vs : List String) : AppResult :=
  if vs.length < 3 then AppResult.notFound username
  else
    let tag := vs.getD 0 ""
    let price := vs.getD 1 ""
    let status := vs.getD 2 ""
    let available := strLower status == "unavailable"
    AppResult.listed tag price status available
      (if available then "✅ This username might be free or not listed on Fragment" else "")

/-- The recursion of check_fgusername (src/api/app.py lines 60-116):
each level resolves the hash anew (one GET); a missing API URL returns
the error dictionary at line 66; a POST exception or a falsy html field
sleeps two seconds and recurses while retries remain, and otherwise
returns the error dictionary at line 79 or line 86. -/
def fgLoop (env : AppEnv) (username : String) : Nat → Nat → AppOutcome
  | retries, depth =>
    match appFragApi (env.scriptsAt depth) with
    | none => ⟨AppResult.err ("Could not get API URL for @" ++ username), 1, 0, []⟩
    | some _ =>
      match env.postAt depth with
      | AppPostOutcome.exn =>
        match retries with
        | r + 1 =>
          let rest := fgLoop env username r (depth + 1)
          ⟨rest.result, rest.gets + 1, rest.posts + 1, 2 :: rest.sleeps⟩
        | 0 => ⟨AppResult.err "API request failed", 1, 1, []⟩
      | AppPostOutcome.ok html =>
        match html with
        | none =>
          match retries with
          | r + 1 =>
            let rest := fgLoop env username r (depth + 1)
            ⟨rest.result, rest.gets + 1, rest.posts + 1, 2 :: rest.sleeps⟩
          | 0 => ⟨AppResult.err "No HTML returned from Fragment API", 1, 1, []⟩
        | some vs => ⟨appSuccess username vs, 1, 1, []⟩

/-- check_fgusername (src/api/app.py lines 60-116) with its default of
three retries. -/
def check_fgusername (env : AppEnv) (username : String) (retries : Nat := 3) :
    AppOutcome :=
  fgLoop env username retries 0

/-- The branch on the error key at src/api/app.py lines 162-166: a
dictionary containing an error key is re-raised as an HTTPException with
status 500 carrying its message. -/
def appCoreResp : AppResult → EndpointResult AppResult
  | AppResult.err m => EndpointResult.serverError m
  | r => EndpointResult.ok r

/-- Tail of the handlers of src/api/app.py (lines 160-168 and 180-188):
run the check, then branch on the error key. -/
def app_check_core (env : AppEnv) (u : String) : EndpointResult AppResult × Nat :=
  let out := check_fgusername env u 3
  (appCoreResp out.result, out.gets + out.posts)

/-- Body of the GET handler of src/api/app.py (lines 149-168) after
normalization: reject the empty residue, then a residue longer than 32
characters, then a residue failing the format check, otherwise check. -/
def app_username_body (env : AppEnv) (username : String) :
    EndpointResult AppResult × Nat :=
  if username = "" then (EndpointResult.badRequest "Username is required", 0)
  else if 32 < username.toList.length then
    (EndpointResult.badRequest "Username too long (max 32 characters)", 0)
  else if ¬ formatPlus username then
    (EndpointResult.badRequest
      "Invalid username format (only letters, numbers, and underscore)", 0)
  else app_check_core env username

/-- The GET handler of src/api/app.py (lines 142-168). -/
def app_username_get (env : AppEnv) (raw : String) :
    EndpointResult AppResult × Nat :=
  app_username_body env (normalizeUsername raw)

/-- Body of the POST handler of src/api/app.py (lines 175-188): only the
empty residue is rejected; no length or format validation is performed
before the check runs. -/
def app_username_post_body (env : AppEnv) (username : String) :
    EndpointResult AppResult × Nat :=
  if username = "" then (EndpointResult.badRequest "Username is required", 0)
  else app_check_core env username

/-- The POST handler of src/api/app.py (lines 170-188). -/
def app_username_post (env : AppEnv) (raw : String) :
    EndpointResult AppResult × Nat :=
  app_username_post_body env (normalizeUsername raw)

/- ------------------------------------------------------------------ -/
/- Concrete environments used in closed theorems                       -/
/- ------------------------------------------------------------------ -/

/-- A 64-character hex token, as matched by the strict hash pattern. -/
def hex64 : String := String.mk (List.replicate 64 'a')

/-- A 33-character raw input containing an at sign whose residue after
normalization is a valid 32-character name. -/
def long33 : String := String.mk ('@' :: List.replicate 32 'a')

/-- A landing page on which the strict hash pattern succeeds. -/
def hashPage : String := "hash=" ++ hex64

/-- A landing-page script for app.py on which frag_api succeeds. -/
def scriptText : String := "var apiUrl = x; hash=abc"

/-- index.py environment: landing page fetch raises, every POST attempt
would raise a network error. -/
def envDead : IndexEnv := ⟨Except.error (), fun _ => AttemptOutcome.reqError "boom"⟩

/-- index.py environment: hash resolves, every POST attempt times out. -/
def envHashTimeout : IndexEnv := ⟨Except.ok hashPage, fun _ => AttemptOutcome.timeout⟩

/-- index.py environment: hash resolves, the POST succeeds with an empty
html fragment. -/
def envNotListed : IndexEnv := ⟨Except.ok hashPage, fun _ => AttemptOutcome.success none⟩

/-- index.py environment: the landing page fetch raises while every POST
attempt would succeed with a full listing. -/
def envShort : IndexEnv :=
  ⟨Except.error (), fun _ => AttemptOutcome.success (some ["@a", "1 TON", "x"])⟩

/-- index.py environment: hash resolves, the POST succeeds with a listing
whose status text is the word Available. -/
def envListedAvail : IndexEnv :=
  ⟨Except.ok hashPage, fun _ => AttemptOutcome.success (some ["@foo", "1000 TON", "Available"])⟩

/-- index.py environment: hash resolves, the POST succeeds with a listing
whose status text is the word Unavailable. -/
def envListedUnavail : IndexEnv :=
  ⟨Except.ok hashPage, fun _ => AttemptOutcome.success (some ["@foo", "1000 TON", "Unavailable"])⟩

/-- app.py environment: the landing page fetch raises on every call. -/
def appEnvDead : AppEnv := ⟨fun _ => Except.error (), fun _ => AppPostOutcome.exn⟩

/-- app.py environment: frag_api succeeds on every call, every POST
attempt raises. -/
def appEnvAllExn : AppEnv :=
  ⟨fun _ => Except.ok [some scriptText], fun _ => AppPostOutcome.exn⟩

/-- app.py environment: frag_api succeeds, every POST returns a JSON
envelope without a truthy html field. -/
def appEnvNoHtml : AppEnv :=
  ⟨fun _ => Except.ok [some scriptText], fun _ => AppPostOutcome.ok none⟩

/-- app.py environment: frag_api succeeds, the POST succeeds with a full
listing whose status text is the word Unavailable. -/
def appEnvListed : AppEnv :=
  ⟨fun _ => Except.ok [some scriptText],
    fun _ => AppPostOutcome.ok (some ["@foo", "1000 TON", "Unavailable"])⟩

/-- app.py environment: frag_api succeeds, the POST succeeds with a
single value element. -/
def appEnvShortVals : AppEnv :=
  ⟨fun _ => Except.ok [some scriptText], fun _ => AppPostOutcome.ok (some ["@foo"])⟩

/- ------------------------------------------------------------------ -/
/- Spec-modelled status-resolution engine                              -/
/- ------------------------------------------------------------------ -/

/-- Modelled from the spec: the PageSignal classification of spec
section 4.4.  The Marketplace Page Prober does not appear anywhere in
src/. -/
inductive PageSignal where
  | sold
  | activeListing
  | unknown
deriving DecidableEq

/-- Modelled from the spec: the AuctionRecord of spec section 3; price
and listing status are present only when the fragment carries them. -/
structure AuctionRecord where
  displayTag : String
  price : Option String
  listingStatusText : Option String

/-- Modelled from the spec: the four-way ProbeOutcome of spec section 3. -/
inductive ProbeOutcome where
  | sold
  | available
  | taken
  | free
deriving DecidableEq

/-- Modelled from the spec: the structured result of spec sections 4.1
and 6. -/
structure ResolvedStatus where
  outcome : ProbeOutcome
  onMarketplace : Bool
  canClaim : Bool
  price : String
deriving DecidableEq

/-- Modelled from the spec: the precedence chain of spec section 4.1,
steps 1 to 4.  The Marketplace Page Prober, the Telegram Existence Prober
and this four-way engine are absent from src/ (the src variant consults
only the Marketplace Auction Lookup), so the engine is taken from the
spec wording: a definitive sold marker wins outright; otherwise a
non-empty auction record yields available with the price of the record
when present; otherwise an existing Telegram profile yields taken;
otherwise free with can-claim true. -/
def resolveStatus (page : PageSignal) (auction : Option AuctionRecord)
    (telegramExists : Bool) : ResolvedStatus :=
  match page with
  | PageSignal.sold => ⟨ProbeOutcome.sold, true, false, "Unknown"⟩
  | _ =>
    match auction with
    | some r => ⟨ProbeOutcome.available, true, false, r.price.getD "Unknown"⟩
    | none =>
      if telegramExists then ⟨ProbeOutcome.taken, false, false, "Unknown"⟩
      else ⟨ProbeOutcome.free, false, true, "Unknown"⟩

/- ------------------------------------------------------------------ -/
/- Helper lemmas                                                       -/
/- ------------------------------------------------------------------ -/

/-- Every run of the retry loop produces exactly one of the four result
shapes of check_username_on_fragment: an error dictionary, the Not Listed
dictionary, the Not Found dictionary, or the listing extraction. -/
theorem fragTry_shape (out : Nat → AttemptOutcome) (u : String) :
    ∀ remaining attempt,
      (∃ m, (fragTry out u attempt remaining).result = FragResult.err m ("@" ++ u)) ∨
      (fragTry out u attempt remaining).result = fragNotListed u ∨
      (fragTry out u attempt remaining).result = fragNotFound u ∨
      (∃ vs, 3 ≤ vs.length ∧ (fragTry out u attempt remaining).result = fragListed u vs) := by
  intro remaining
  induction remaining with
  | zero =>
    intro attempt
    cases h : out attempt with
    | timeout =>
      exact Or.inl ⟨"Request timeout. Fragment.com is taking too long to respond.",
        by simp [fragTry, h]⟩
    | reqError m => exact Or.inl ⟨"Network error: " ++ m, by simp [fragTry, h]⟩
    | otherError m => exact Or.inl ⟨"Unexpected error: " ++ m, by simp [fragTry, h]⟩
    | success v =>
      cases v with
      | none => exact Or.inr (Or.inl (by simp [fragTry, h, fragSuccess]))
      | some vs =>
        by_cases hlen : vs.length < 3
        · exact Or.inr (Or.inr (Or.inl (by simp [fragTry, h, fragSuccess, hlen])))
        · exact Or.inr (Or.inr (Or.inr
            ⟨vs, Nat.le_of_not_lt hlen, by simp [fragTry, h, fragSuccess, hlen]⟩))
  | succ r ih =>
    intro attempt
    cases h : out attempt with
    | timeout => simpa [fragTry, h] using ih (attempt + 1)
    | reqError m => simpa [fragTry, h] using ih (attempt + 1)
    | otherError m => exact Or.inl ⟨"Unexpected error: " ++ m, by simp [fragTry, h]⟩
    | success v =>
      cases v with
      | none => exact Or.inr (Or.inl (by simp [fragTry, h, fragSuccess]))
      | some vs =>
        by_cases hlen : vs.length < 3
        · exact Or.inr (Or.inr (Or.inl (by simp [fragTry, h, fragSuccess, hlen])))
        · exact Or.inr (Or.inr (Or.inr
            ⟨vs, Nat.le_of_not_lt hlen, by simp [fragTry, h, fragSuccess, hlen]⟩))

/-- When every attempt outcome models an exception, the retry loop ends
in an error dictionary. -/
theorem fragTry_allfail (out : Nat → AttemptOutcome) (u : String)
    (hf : ∀ n, attemptFails (out n) = true) :
    ∀ remaining attempt,
      ∃ m, (fragTry out u attempt remaining).result = FragResult.err m ("@" ++ u) := by
  intro remaining
  induction remaining with
  | zero =>
    intro attempt
    cases h : out attempt with
    | timeout =>
      exact ⟨"Request timeout. Fragment.com is taking too long to respond.",
        by simp [fragTry, h]⟩
    | reqError m => exact ⟨"Network error: " ++ m, by simp [fragTry, h]⟩
    | otherError m => exact ⟨"Unexpected error: " ++ m, by simp [fragTry, h]⟩
    | success v =>
      have hc := hf attempt
      rw [h] at hc
      simp [attemptFails] at hc
  | succ r ih =>
    intro attempt
    cases h : out attempt with
    | timeout => simpa [fragTry, h] using ih (attempt + 1)
    | reqError m => simpa [fragTry, h] using ih (attempt + 1)
    | otherError m => exact ⟨"Unexpected error: " ++ m, by simp [fragTry, h]⟩
    | success v =>
      have hc := hf attempt
      rw [h] at hc
      simp [attemptFails] at hc

/-- When every attempt outcome models an exception, the handler core
raises an HTTPException with status 500. -/
theorem core_serverError_of_allfail (env : IndexEnv) (u : String)
    (hf : ∀ n, attemptFails (env.attempt n) = true) :
    ∃ m calls, index_check_core env u = (EndpointResult.serverError m, calls) := by
  cases h : getApiHash env with
  | none =>
    exact ⟨"Failed to connect to Fragment.com. Please try again later.", 1,
      by simp [index_check_core, check_username_on_fragment, h, coreResp]⟩
  | some hsh =>
    obtain ⟨m, hm⟩ := fragTry_allfail env.attempt u hf 2 0
    refine ⟨m, (check_username_on_fragment env u 2).gets +
      (check_username_on_fragment env u 2).posts, ?_⟩
    have hres : (check_username_on_fragment env u 2).result =
        FragResult.err m ("@" ++ u) := by
      simpa [check_username_on_fragment, h] using hm
    simp [index_check_core, hres, coreResp]

/-- The handler core never raises an HTTPException with status 400. -/
theorem coreResp_ne_badRequest (r : FragResult) (d : String) :
    coreResp r ≠ EndpointResult.badRequest d := by
  cases r <;> simp [coreResp]

/- ------------------------------------------------------------------ -/
/- Claims                                                              -/
/- ------------------------------------------------------------------ -/

/-- C1, counterexample.  The claim states that every check produces an
outcome drawn from the four-way set Sold, Available, Taken, Free.  In an
environment where the hash resolves and the POST succeeds with an empty
html fragment, the produced status is Not Listed, which lies outside that
set. -/
theorem c1_counterexample :
    FragResult.statusOf (check_username_on_fragment envNotListed "foo" 2).result =
      some "Not Listed" ∧
    "Not Listed" ∉ (["Sold", "Available", "Taken", "Free"] : List String) := by
  decide

/-- C1, amended.  For every environment, username and retry budget,
check_username_on_fragment produces exactly one result and it has one of
the four shapes of the code: an error dictionary carrying the at-prefixed
username (surfaced by the endpoints as HTTPException 500), the Not Listed
dictionary, the Not Found dictionary, or the listing extraction from a
fragment with at least three value elements; never null, partial or
composite, and never a label from the set Sold, Available, Taken, Free. -/
theorem c1_engine_result_shape (env : IndexEnv) (u : String) (retries : Nat) :
    (∃ m, (check_username_on_fragment env u retries).result =
      FragResult.err m ("@" ++ u)) ∨
    (check_username_on_fragment env u retries).result = fragNotListed u ∨
    (check_username_on_fragment env u retries).result = fragNotFound u ∨
    (∃ vs, 3 ≤ vs.length ∧
      (check_username_on_fragment env u retries).result = fragListed u vs) := by
  cases h : getApiHash env with
  | none =>
    exact Or.inl ⟨"Failed to connect to Fragment.com. Please try again later.",
      by simp [check_username_on_fragment, h]⟩
  | some hsh =>
    have hs := fragTry_shape env.attempt u retries 0
    simpa [check_username_on_fragment, h] using hs

/-- C2.  In the engine modelled from spec section 4.1, a definitive sold
report from the Marketplace Page Prober forces the outcome Sold with
on-marketplace true and can-claim false, regardless of what the Auction
Lookup or the Telegram Prober would report. -/
theorem c2_page_sold_precedence (auction : Option AuctionRecord) (tg : Bool) :
    (resolveStatus PageSignal.sold auction tg).outcome = ProbeOutcome.sold ∧
    (resolveStatus PageSignal.sold auction tg).onMarketplace = true ∧
    (resolveStatus PageSignal.sold auction tg).canClaim = false :=
  ⟨rfl, rfl, rfl⟩

/-- C3, counterexample.  The claim states that when every probe fails
with network exceptions the engine falls back to the Free or unknown
classification and nothing is raised past its boundary.  In an
environment where the landing-page fetch raises (so every probe the code
issues fails), the engine returns an error dictionary with available set
to None, and the GET handler raises HTTPException 500 to the caller
rather than producing any availability classification. -/
theorem c3_counterexample :
    (check_username_on_fragment envDead "foo" 2).result =
      FragResult.err "Failed to connect to Fragment.com. Please try again later." "@foo" ∧
    FragResult.availableOf (check_username_on_fragment envDead "foo" 2).result = none ∧
    index_username_get envDead "foo" =
      (EndpointResult.serverError
        "Failed to connect to Fragment.com. Please try again later.", 1) := by
  decide

/-- C3, amended.  When every probe attempt fails with a transport
exception, the engine function itself still returns a value (an error
dictionary, never an uncaught exception), but that value is not a Free or
unknown classification: the GET handler surfaces it to the caller as an
HTTPException with status 500. -/
theorem c3_allfail_no_free_fallback (env : IndexEnv) (raw : String)
    (hf : ∀ n, attemptFails (env.attempt n) = true)
    (hv : validFormat32 (normalizeUsername raw) = true) :
    ∃ m calls, index_username_get env raw = (EndpointResult.serverError m, calls) := by
  obtain ⟨m, calls, hc⟩ := core_serverError_of_allfail env (normalizeUsername raw) hf
  refine ⟨m, calls, ?_⟩
  have hne : normalizeUsername raw ≠ "" := by
    intro he
    rw [he] at hv
    exact absurd hv (by decide)
  simp [index_username_get, index_username_body, hne, hv, hc]

/-- C3, witness for the amended theorem at a concrete input. -/
theorem c3_allfail_witness :
    (∀ n, attemptFails (envDead.attempt n) = true) ∧
    (validFormat32 (normalizeUsername "foo") = true) ∧
    ∃ m calls, index_username_get envDead "foo" = (EndpointResult.serverError m, calls) :=
  ⟨fun _ => rfl, by decide,
    c3_allfail_no_free_fallback envDead "foo" (fun _ => rfl) (by decide)⟩

/-- C4, counterexample.  The claim states that after the configured
attempts the lookup returns a no-record value treated as non-conclusive,
with no exception propagated to the caller.  In an environment where the
hash resolves and every POST attempt times out, the code does issue
exactly three attempts, but it then returns an error dictionary and the
GET handler propagates an HTTPException with status 500 to the caller. -/
theorem c4_counterexample :
    (check_username_on_fragment envHashTimeout "foo" 2).posts = 3 ∧
    index_username_get envHashTimeout "foo" =
      (EndpointResult.serverError
        "Request timeout. Fragment.com is taking too long to respond.", 4) := by
  decide

/-- C4, amended.  When the hash resolves and the transport fails on every
attempt, check_username_on_fragment of src/api/index.py issues exactly
three POST attempts (retries = 2) with a one-second sleep between
consecutive attempts and returns the timeout error dictionary, which the
handler core surfaces as HTTPException 500; check_fgusername of
src/api/app.py issues exactly four attempts (retries = 3) with
two-second sleeps and returns its error dictionary. -/
theorem c4_retry_exhaustion (env : IndexEnv) (u hsh : String) (aenv : AppEnv)
    (url : String)
    (h1 : getApiHash env = some hsh)
    (h2 : ∀ n, env.attempt n = AttemptOutcome.timeout)
    (h3 : ∀ d, appFragApi (aenv.scriptsAt d) = some url)
    (h4 : ∀ d, aenv.postAt d = AppPostOutcome.exn) :
    check_username_on_fragment env u 2 =
      ⟨FragResult.err "Request timeout. Fragment.com is taking too long to respond."
        ("@" ++ u), 1, 3, [1, 1]⟩ ∧
    index_check_core env u =
      (EndpointResult.serverError
        "Request timeout. Fragment.com is taking too long to respond.", 4) ∧
    check_fgusername aenv u 3 = ⟨AppResult.err "API request failed", 4, 4, [2, 2, 2]⟩ := by
  have hidx : check_username_on_fragment env u 2 =
      ⟨FragResult.err "Request timeout. Fragment.com is taking too long to respond."
        ("@" ++ u), 1, 3, [1, 1]⟩ := by
    simp [check_username_on_fragment, h1, fragTry, h2]
  refine ⟨hidx, ?_, ?_⟩
  · simp [index_check_core, hidx, coreResp]
  · simp [check_fgusername, fgLoop, h3, h4]

/-- C4, witness for the amended theorem at concrete environments. -/
theorem c4_retry_exhaustion_witness :
    getApiHash envHashTimeout = some hex64 ∧
    check_username_on_fragment envHashTimeout "foo" 2 =
      ⟨FragResult.err "Request timeout. Fragment.com is taking too long to respond."
        "@foo", 1, 3, [1, 1]⟩ ∧
    check_fgusername appEnvAllExn "foo" 3 =
      ⟨AppResult.err "API request failed", 4, 4, [2, 2, 2]⟩ :=
  ⟨by decide,
    (c4_retry_exhaustion envHashTimeout "foo" hex64 appEnvAllExn
      "https://fragment.com/api?hash=abc" (by decide) (fun _ => rfl)
      (fun _ => rfl) (fun _ => rfl)).1,
    (c4_retry_exhaustion envHashTimeout "foo" hex64 appEnvAllExn
      "https://fragment.com/api?hash=abc" (by decide) (fun _ => rfl)
      (fun _ => rfl) (fun _ => rfl)).2.2⟩

/-- C5, counterexample.  The claim states that a hash-resolution failure
is never surfaced to the caller as a hard failure and that the engine
proceeds to the next precedence step.  In an environment where the
landing-page fetch raises while every POST attempt would succeed, the
lookup is indeed skipped (zero POST requests), but there is no next step:
the GET handler surfaces the failure as HTTPException 500. -/
theorem c5_counterexample :
    (check_username_on_fragment envShort "foo" 2).posts = 0 ∧
    index_username_get envShort "foo" =
      (EndpointResult.serverError
        "Failed to connect to Fragment.com. Please try again later.", 1) := by
  decide

/-- C5, amended.  When get_api_hash returns None, the check returns the
connection error dictionary immediately with zero POST requests (the
Marketplace Auction Lookup is short-circuited for that check), and the
handler core surfaces the failure as HTTPException 500; no further
precedence step exists. -/
theorem c5_hash_failure_short_circuit (env : IndexEnv) (u : String) (retries : Nat)
    (h : getApiHash env = none) :
    check_username_on_fragment env u retries =
      ⟨FragResult.err "Failed to connect to Fragment.com. Please try again later."
        ("@" ++ u), 1, 0, []⟩ ∧
    index_check_core env u =
      (EndpointResult.serverError
        "Failed to connect to Fragment.com. Please try again later.", 1) := by
  constructor
  · simp [check_username_on_fragment, h]
  · simp [index_check_core, check_username_on_fragment, h, coreResp]

/-- C5, witness for the amended theorem at a concrete environment. -/
theorem c5_hash_failure_witness :
    getApiHash envShort = none ∧
    check_username_on_fragment envShort "foo" 2 =
      ⟨FragResult.err "Failed to connect to Fragment.com. Please try again later."
        "@foo", 1, 0, []⟩ :=
  ⟨by decide, (c5_hash_failure_short_circuit envShort "foo" 2 (by decide)).1⟩

/-- C6.  The claim (and spec sections 6 and 7) requires every public
entry point to reject invalid input before any probe is invoked, with
zero network calls.  The GET handlers of both files and the POST handler
of src/api/index.py do reject the input foo bar with HTTPException 400
and zero network calls, but the POST handler of src/api/app.py validates
only non-emptiness: on foo bar it invokes check_fgusername, which issues
a network request (one call in this environment) and the invalid name
reaches the probe layer. -/
theorem c6_post_handler_validation_gap :
    app_username_post appEnvDead "foo bar" =
      (EndpointResult.serverError "Could not get API URL for @foo bar", 1) ∧
    app_username_get appEnvDead "foo bar" =
      (EndpointResult.badRequest
        "Invalid username format (only letters, numbers, and underscore)", 0) ∧
    index_username_get envDead "foo bar" =
      (EndpointResult.badRequest
        "Invalid username format. Username must be 1-32 characters containing only letters, numbers, and underscores.", 0) ∧
    index_username_post envDead "foo bar" =
      (EndpointResult.badRequest
        "Invalid username format. Username must be 1-32 characters containing only letters, numbers, and underscores.", 0) := by
  decide

/-- C7, counterexample.  The claim states that a non-empty record always
yields the outcome Available.  In an environment where the POST succeeds
with three value elements whose status text is the word Available, the
code sets the available flag to false (the flag requires the word
unavailable inside the lowercased status text) and reports the username
as not available; there is also no on-marketplace field anywhere in the
result. -/
theorem c7_counterexample :
    (check_username_on_fragment envListedAvail "foo" 2).result =
      FragResult.ok "@foo" "1000 TON" "Available" false "❌ Not available on Fragment" ∧
    FragResult.availableOf
      (check_username_on_fragment envListedAvail "foo" 2).result = some false := by
  decide

/-- C7, amended.  When the hash resolves and the first POST succeeds with
at least three value elements, the result price equals the text of the
second value element, and the available flag is true exactly when the
lowercased third element contains the word unavailable (src/api/index.py)
or equals it (src/api/app.py); no on-marketplace field exists. -/
theorem c7_listed_price_and_flag (env : IndexEnv) (u hsh : String) (vs : List String)
    (aenv : AppEnv) (url : String)
    (h1 : getApiHash env = some hsh)
    (h2 : env.attempt 0 = AttemptOutcome.success (some vs))
    (h3 : 3 ≤ vs.length)
    (h4 : appFragApi (aenv.scriptsAt 0) = some url)
    (h5 : aenv.postAt 0 = AppPostOutcome.ok (some vs)) :
    (check_username_on_fragment env u 2).result = fragListed u vs ∧
    FragResult.priceOf (check_username_on_fragment env u 2).result =
      some (vs.getD 1 "Unknown") ∧
    FragResult.availableOf (check_username_on_fragment env u 2).result =
      some (subOccurs "unavailable".toList (strLower (vs.getD 2 "Unknown")).toList) ∧
    (check_fgusername aenv u 3).result =
      AppResult.listed (vs.getD 0 "") (vs.getD 1 "") (vs.getD 2 "")
        (strLower (vs.getD 2 "") == "unavailable")
        (if strLower (vs.getD 2 "") == "unavailable" then
          "✅ This username might be free or not listed on Fragment" else "") := by
  have hnl : ¬ vs.length < 3 := Nat.not_lt.mpr h3
  have hidx : (check_username_on_fragment env u 2).result = fragListed u vs := by
    simp [check_username_on_fragment, h1, fragTry, h2, fragSuccess, hnl]
  refine ⟨hidx, ?_, ?_, ?_⟩
  · rw [hidx]
    simp [fragListed, FragResult.priceOf]
  · rw [hidx]
    simp [fragListed, FragResult.availableOf]
  · simp [check_fgusername, fgLoop, h4, h5, appSuccess, hnl]

/-- C7, witness for the amended theorem at concrete environments. -/
theorem c7_listed_witness :
    (3 ≤ (["@foo", "1000 TON", "Unavailable"] : List String).length) ∧
    FragResult.priceOf (check_username_on_fragment envListedUnavail "foo" 2).result =
      some ((["@foo", "1000 TON", "Unavailable"] : List String).getD 1 "Unknown") ∧
    (check_fgusername appEnvListed "foo" 3).result =
      AppResult.listed ((["@foo", "1000 TON", "Unavailable"] : List String).getD 0 "")
        ((["@foo", "1000 TON", "Unavailable"] : List String).getD 1 "")
        ((["@foo", "1000 TON", "Unavailable"] : List String).getD 2 "")
        (strLower ((["@foo", "1000 TON", "Unavailable"] : List String).getD 2 "") == "unavailable")
        (if strLower ((["@foo", "1000 TON", "Unavailable"] : List String).getD 2 "") == "unavailable" then
          "✅ This username might be free or not listed on Fragment" else "") :=
  ⟨by decide,
    (c7_listed_price_and_flag envListedUnavail "foo" hex64
      ["@foo", "1000 TON", "Unavailable"] appEnvListed
      "https://fragment.com/api?hash=abc" (by decide) rfl (by decide)
      (by decide) rfl).2.1,
    (c7_listed_price_and_flag envListedUnavail "foo" hex64
      ["@foo", "1000 TON", "Unavailable"] appEnvListed
      "https://fragment.com/api?hash=abc" (by decide) rfl (by decide)
      (by decide) rfl).2.2.2⟩

/-- C8, counterexample.  The claim states that an empty fragment is
treated as a no-record result and that absence is never a failure.  That
holds in src/api/index.py, but in src/api/app.py a JSON envelope without
a truthy html field is retried and, after the retries, returned as an
error dictionary which the GET handler surfaces as HTTPException 500. -/
theorem c8_counterexample :
    check_fgusername appEnvNoHtml "foo" 3 =
      ⟨AppResult.err "No HTML returned from Fragment API", 4, 4, [2, 2, 2]⟩ ∧
    app_username_get appEnvNoHtml "foo" =
      (EndpointResult.serverError "No HTML returned from Fragment API", 8) := by
  decide

/-- C8, amended.  In src/api/index.py a successful response with an
absent or falsy html field yields the non-error Not Listed dictionary and
a fragment with fewer than three value elements yields the non-error Not
Found dictionary; in src/api/app.py a fragment with fewer than three
value elements yields the non-error Not Found dictionary, but an absent
or falsy html field is retried and finally surfaced as a hard error. -/
theorem c8_absence_not_error (env : IndexEnv) (u hsh : String)
    (h1 : getApiHash env = some hsh) :
    (env.attempt 0 = AttemptOutcome.success none →
      (check_username_on_fragment env u 2).result = fragNotListed u) ∧
    (∀ vs, env.attempt 0 = AttemptOutcome.success (some vs) → vs.length < 3 →
      (check_username_on_fragment env u 2).result = fragNotFound u) ∧
    (∀ aenv : AppEnv, ∀ url vs, appFragApi (aenv.scriptsAt 0) = some url →
      aenv.postAt 0 = AppPostOutcome.ok (some vs) → vs.length < 3 →
      (check_fgusername aenv u 3).result = AppResult.notFound u) := by
  refine ⟨fun h2 => ?_, fun vs h2 hlen => ?_, fun aenv url vs h4 h5 hlen => ?_⟩
  · simp [check_username_on_fragment, h1, fragTry, h2, fragSuccess]
  · simp [check_username_on_fragment, h1, fragTry, h2, fragSuccess, hlen]
  · simp [check_fgusername, fgLoop, h4, h5, appSuccess, hlen]

/-- C8, witness for the amended theorem at concrete environments. -/
theorem c8_absence_witness :
    (check_username_on_fragment envNotListed "foo" 2).result = fragNotListed "foo" ∧
    (check_fgusername appEnvShortVals "foo" 3).result = AppResult.notFound "foo" :=
  ⟨(c8_absence_not_error envNotListed "foo" hex64 (by decide)).1 rfl,
    (c8_absence_not_error envNotListed "foo" hex64 (by decide)).2.2 appEnvShortVals
      "https://fragment.com/api?hash=abc" ["@foo"] (by decide) rfl (by decide)⟩

/-- C9.  The raw inputs at-Foo, foo, and space-FOO-space all normalize to
the identical query string foo, and for identical probe responses the GET
handlers of both files produce identical results on them. -/
theorem c9_normalization_agreement :
    normalizeUsername "@Foo" = "foo" ∧
    normalizeUsername " FOO " = "foo" ∧
    normalizeUsername "foo" = "foo" ∧
    (∀ env : IndexEnv, index_username_get env "@Foo" = index_username_get env "foo" ∧
      index_username_get env " FOO " = index_username_get env "foo") ∧
    (∀ env : AppEnv, app_username_get env "@Foo" = app_username_get env "foo" ∧
      app_username_get env " FOO " = app_username_get env "foo") := by
  refine ⟨by decide, by decide, by decide, fun env => ⟨?_, ?_⟩, fun env => ⟨?_, ?_⟩⟩
  · unfold index_username_get
    exact congrArg _ (by decide)
  · unfold index_username_get
    exact congrArg _ (by decide)
  · unfold app_username_get
    exact congrArg _ (by decide)
  · unfold app_username_get
    exact congrArg _ (by decide)

/-- C10.  Normalization removes every at sign anywhere in the input
(after stripping and lowercasing), and validation runs on the residue:
whenever the residue is a valid name, the GET handlers of both files
accept the input (no HTTPException 400) and run the check on the residue,
so inputs such as ob-at-ito, or a 33-character input containing an at
sign, are accepted and queried with the at signs removed. -/
theorem c10_at_sign_removal (s : String) (env : IndexEnv)
    (h : validFormat32 (normalizeUsername s) = true) :
    index_username_get env s = index_check_core env (normalizeUsername s) ∧
    (∀ d, (index_username_get env s).1 ≠ EndpointResult.badRequest d) ∧
    (∀ aenv : AppEnv, app_username_get aenv s = app_check_core aenv (normalizeUsername s)) := by
  have hne : normalizeUsername s ≠ "" := by
    intro he
    rw [he] at h
    exact absurd h (by decide)
  have h' := h
  simp only [validFormat32, Bool.and_eq_true, decide_eq_true_eq] at h'
  obtain ⟨⟨hlen1, hlen2⟩, hall⟩ := h'
  have hmain : index_username_get env s = index_check_core env (normalizeUsername s) := by
    simp [index_username_get, index_username_body, hne, h]
  refine ⟨hmain, fun d => ?_, fun aenv => ?_⟩
  · rw [hmain]
    simpa [index_check_core] using
      coreResp_ne_badRequest (check_username_on_fragment env (normalizeUsername s) 2).result d
  · have hfp : formatPlus (normalizeUsername s) = true := by
      simp only [formatPlus, Bool.and_eq_true, decide_eq_true_eq]
      exact ⟨hlen1, hall⟩
    have hlen2l : ¬ 32 < (normalizeUsername s).length := Nat.not_lt.mpr hlen2
    simp [app_username_get, app_username_body, hne, hlen2l, hfp]

/-- C10, witness at the inputs named by the claim. -/
theorem c10_at_sign_removal_witness :
    validFormat32 (normalizeUsername "ob@ito") = true ∧
    normalizeUsername "ob@ito" = "obito" ∧
    index_username_get envDead "ob@ito" = index_check_core envDead (normalizeUsername "ob@ito") ∧
    validFormat32 (normalizeUsername long33) = true ∧
    index_username_get envDead long33 = index_check_core envDead (normalizeUsername long33) ∧
    batchUsernameList "ob@ito" = ["obito"] :=
  ⟨by decide, by decide, (c10_at_sign_removal "ob@ito" envDead (by decide)).1,
    by decide, (c10_at_sign_removal long33 envDead (by decide)).1, by decide⟩

end Fragm
